import Mathlib

/-!
Verification of `tfdeepsurv/datasets.py` (survival-data statistics and
label-encoding transform).

The table type models a `pandas.DataFrame` restricted to what the module
touches: an ordered list of column names and positionally aligned rows of
rational values (the module only copies, negates, sums and divides values,
which rationals model exactly; the one place the float backend matters —
the 0/0 event ratio of an empty table, printed as `nan` — is modelled with
`Option ℚ`, `none` standing for NaN).

Errors are modelled by `PyError`.  The Python code defines no error classes
of its own: the only failure it can produce is the `KeyError` that pandas
raises on a missing column label.  The three typed errors named by the
specification (`ColumnNotFoundError`, `EmptyDatasetError`,
`DuplicateColumnError`) are included as constructors so that claims about
them are statable; no code path of the translation produces them.
-/

structure DataFrame where
  cols : List String
  rows : List (List ℚ)
deriving DecidableEq, Repr

/-- Every row has exactly one value per column (a real `DataFrame` always
satisfies this). -/
def wellFormed (df : DataFrame) : Prop :=
  ∀ rr ∈ df.rows, rr.length = df.cols.length

instance (df : DataFrame) : Decidable (wellFormed df) :=
  List.decidableBAll _ df.rows

/-- Position of a column label, first occurrence (pandas label lookup). -/
def findIdx (c : String) : List String → Option ℕ
  | [] => none
  | c1 :: cs => if c1 = c then some 0 else (findIdx c cs).map Nat.succ

inductive PyError where
  | keyError (name : String)
  | columnNotFoundError (name : String)
  | emptyDatasetError
  | duplicateColumnError (name : String)
deriving DecidableEq, Repr

/-- `data[c]` / `data.loc[:, c]` as a column read: the list of values of
column `c`, or `none` (pandas `KeyError`) when the label is absent. -/
def getCol (df : DataFrame) (c : String) : Option (List ℚ) :=
  (findIdx c df.cols).map (fun j => df.rows.map (fun rr => rr.getD j 0))

/-- `data.loc[:, c] = vals`: overwrite the column in place when the label
exists, otherwise append it as the last column (pandas assignment). -/
def setCol (df : DataFrame) (c : String) (vals : List ℚ) : DataFrame :=
  match findIdx c df.cols with
  | some j => ⟨df.cols, df.rows.zipWith (fun rr v => rr.set j v) vals⟩
  | none => ⟨df.cols ++ [c], df.rows.zipWith (fun rr v => rr ++ [v]) vals⟩

/-- Line 61 of the source: `data.loc[data[e_col] == 0, label_col] =
- data.loc[data[e_col] == 0, label_col]`, with `ei`/`li` the positions of
the event and label columns: negate the label entry of every row whose
event entry equals 0. -/
def negateWhereZero (df : DataFrame) (ei li : ℕ) : DataFrame :=
  ⟨df.cols,
   df.rows.map (fun rr => if rr.getD ei 0 = 0 then rr.set li (-(rr.getD li 0)) else rr)⟩

/-- `data[cs]` for a list of labels: `KeyError` on the first absent label,
otherwise the projection onto `cs` (a duplicated label yields a duplicated
column, as in pandas). -/
def selectCols (df : DataFrame) (cs : List String) : Except PyError DataFrame :=
  match cs.find? (fun c => (findIdx c df.cols).isNone) with
  | some c => .error (.keyError c)
  | none =>
      .ok ⟨cs, df.rows.map (fun rr =>
        cs.map (fun c => rr.getD ((findIdx c df.cols).getD 0) 0))⟩

/-- The covariate-column selection of line 57:
`[c for c in data.columns if c not in [t_col, e_col] + exclude_col]`. -/
def xCols (cols : List String) (t_col e_col : String) (exclude_col : List String) : List String :=
  cols.filter (fun c => ¬ c ∈ ([t_col, e_col] ++ exclude_col))

/-- The signed label produced by lines 60–61: the time value, negated when
the event value equals 0. -/
def signedLabel (tv ev : ℚ) : ℚ := if ev = 0 then -tv else tv

/-- `survival_df(data, t_col, e_col, label_col, exclude_col)`.

Returns the pair (state of the caller's `data` object after the call,
result).  The first component matters because lines 60–61 assign into
`data` itself: the input object is mutated before the function returns.
Evaluation order follows the source: line 60 first evaluates
`data.loc[:, t_col]` (KeyError if `t_col` is absent, before any mutation),
then assigns the label column into `data`; line 61 then looks up
`data[e_col]` in the already-mutated frame and negates the label on the
censored rows; line 63 projects onto `x_cols + [label_col]`. -/
def survival_df (data : DataFrame) (t_col e_col label_col : String)
    (exclude_col : List String) : DataFrame × Except PyError DataFrame :=
  let xs := xCols data.cols t_col e_col exclude_col
  match findIdx t_col data.cols with
  | none => (data, .error (.keyError t_col))
  | some ti =>
    let tvals := data.rows.map (fun rr => rr.getD ti 0)
    let data1 := setCol data label_col tvals
    match findIdx e_col data1.cols with
    | none => (data1, .error (.keyError e_col))
    | some ei =>
      match findIdx label_col data1.cols with
      | none => (data1, .error (.keyError label_col))  -- unreachable after setCol
      | some li =>
        let data2 := negateWhereZero data1 ei li
        match selectCols data2 (xs ++ [label_col]) with
        | .error err => (data2, .error err)
        | .ok out => (data2, .ok out)

/-- Addition on ℚ, computable by the kernel (the library's `Rat.add` is
irreducible); `qAdd_eq_add` below proves it equal to `+`. -/
def qAdd (a b : ℚ) : ℚ := mkRat (a.num * b.den + b.num * a.den) (a.den * b.den)

/-- Sum of a list of rationals; `qSum_eq_sum` below proves it equal to
`List.sum`.  Models `data[e_col].sum()`. -/
def qSum : List ℚ → ℚ
  | [] => 0
  | a :: as => qAdd a (qSum as)

/-- Division of a rational by a natural number, computable by the kernel;
`qDivNat_eq_div` below proves it equal to `· / ·`.  Models the division by
`N = len(data)`. -/
def qDivNat (a : ℚ) (n : ℕ) : ℚ := mkRat a.num (a.den * n)

/-- One line printed by `survival_stats`.  `none` in the numeric slots
models the float `nan` that the backend produces (0/0 ratio on an empty
table, min/max of an empty column). -/
inductive OutLine where
  | header
  | rowsOut (n : ℕ)
  | colsOut (k : ℤ) (e_col t_col : String)
  | ratioOut (v : Option ℚ)
  | minOut (v : Option ℚ)
  | maxOut (v : Option ℚ)
  | blank
deriving DecidableEq, Repr

def listMin : List ℚ → Option ℚ
  | [] => none
  | a :: as => some (match listMin as with | none => a | some b => min a b)

def listMax : List ℚ → Option ℚ
  | [] => none
  | a :: as => some (match listMax as with | none => a | some b => max a b)

/-- `survival_stats(data, t_col, e_col)` (the `plot=False` path; the `plot`
branch only delegates to the external `vision.plot_km_survf`).

Returns the lines printed before the call returned or failed, and the
error if one occurred.  The order follows the source exactly: the header,
row count and column count are printed before the first column access, so
they are emitted even when the event column is missing; the ratio line is
emitted before the time column is accessed for min/max.  When `N = 0`,
`1.0 * sum / N` is a 0/0 of the float backend: no exception, the ratio
prints as `nan` (modelled `none`). -/
def survival_stats (data : DataFrame) (t_col e_col : String) :
    List OutLine × Option PyError :=
  let N := data.rows.length
  let out0 : List OutLine :=
    [.header, .rowsOut N, .colsOut ((data.cols.length : ℤ) - 2) e_col t_col]
  match getCol data e_col with
  | none => (out0, some (.keyError e_col))
  | some evals =>
    let ratioVal : Option ℚ := if N = 0 then none else some (qDivNat (qSum evals) N)
    let out1 := out0 ++ [.ratioOut ratioVal]
    match getCol data t_col with
    | none => (out1, some (.keyError t_col))
    | some tvals =>
      (out1 ++ [.minOut (listMin tvals), .maxOut (listMax tvals), .blank], none)

instance : DecidableEq (Except PyError DataFrame) := fun
  | .ok a, .ok b =>
      if h : a = b then .isTrue (by rw [h])
      else .isFalse (by intro hh; cases hh; exact h rfl)
  | .ok _, .error _ => .isFalse (by intro h; cases h)
  | .error _, .ok _ => .isFalse (by intro h; cases h)
  | .error a, .error b =>
      if h : a = b then .isTrue (by rw [h])
      else .isFalse (by intro hh; cases hh; exact h rfl)

/-- Round to the nearest integer, ties to even (the rounding used by
`%.2f`; the source formats an IEEE double, which agrees with the exact
rational at every value this development renders).  Computed on the
numerator and denominator: `f` is the floor, and the fractional part
`(q.num - f * q.den) / q.den` is compared with `1/2` cross-multiplied. -/
def roundHalfEven (q : ℚ) : ℤ :=
  let f : ℤ := Int.fdiv q.num (q.den : ℤ)
  let rnum : ℤ := q.num - f * (q.den : ℤ)
  if 2 * rnum < (q.den : ℤ) then f
  else if (q.den : ℤ) < 2 * rnum then f + 1
  else if f % 2 = 0 then f else f + 1

/-- `"%.2f" % q`: two-decimal fixed-point rendering
(`mkRat (q.num * 100) q.den` is `q * 100`). -/
def twoDecString (q : ℚ) : String :=
  let n : ℤ := roundHalfEven (mkRat (q.num * 100) q.den)
  let m : ℕ := n.natAbs
  (if n < 0 then "-" else "") ++ toString (m / 100) ++ "." ++
    (if m % 100 < 10 then "0" else "") ++ toString (m % 100)

/-- The text of the events-ratio line, from the source format string
`"# Events Ratio: %.2f%%"` (`%.2f` renders float `nan` as `nan`). -/
def ratioText (v : Option ℚ) : String :=
  "# Events Ratio: " ++ (match v with | some q => twoDecString q | none => "nan") ++ "%"

/-- Result extractors for statements. -/
def resOk (r : Except PyError DataFrame) : Bool :=
  match r with | .ok _ => true | .error _ => false

def resDf (r : Except PyError DataFrame) : DataFrame :=
  match r with | .ok d => d | .error _ => ⟨[], []⟩

/-- Value of row `i`, column `c` (0 outside the table; statements always
pair this with bounds or membership hypotheses). -/
def DataFrame.cell (df : DataFrame) (i : ℕ) (c : String) : ℚ :=
  match findIdx c df.cols with
  | some j => (df.rows.getD i []).getD j 0
  | none => 0

def colVals (df : DataFrame) (c : String) : List ℚ :=
  (getCol df c).getD []

/-! ### Model of `load_simulated_data` and Python default-argument semantics.

A Python `def` statement evaluates its default-argument expressions once;
`gaussian_config={}` therefore allocates a single dict object at module
load, and every call that omits the argument receives a reference to that
same object.  The heap of dict objects and the reference held by the
function object are modelled explicitly. -/

abbrev DictRef := ℕ

abbrev PyDict := List (String × ℚ)

structure ModuleState where
  dicts : List PyDict
  defaultGaussianConfig : DictRef
deriving DecidableEq, Repr

/-- Module state once `def load_simulated_data(...)` has executed: the one
empty dict written in `gaussian_config={}` has been allocated, and the
function's default slot refers to it. -/
def initState : ModuleState := ⟨[[]], 0⟩

/-- The configuration object a call observes: the caller's argument if one
was passed, otherwise the shared dict allocated at definition time. -/
def configRefUsed (st : ModuleState) (gaussian_config : Option DictRef) : DictRef :=
  gaussian_config.getD st.defaultGaussianConfig

/-- The scalar arguments of `load_simulated_data` (`hr` is `hr_ratio` in
the source). -/
structure SimArgs where
  hr : ℚ
  N : ℕ
  num_features : ℕ
  num_var : ℕ
  average_death : ℚ
  end_time : ℚ
  method : String
  seed : ℕ
deriving DecidableEq, Repr

/-- The arrays returned by the simulator. -/
structure SimRaw where
  x : List (List ℚ)
  e : List ℚ
  t : List ℚ
deriving DecidableEq, Repr

/-- Modelled from the spec: `SimulatedData.generate_data`
(tfdeepsurv/simulator.py, which is outside this excerpt) is per §6 of the
specification "a function taking a hazard-ratio parameter and
configuration … and returning arrays {x: covariate matrix, e: event array,
t: time array}" — a function of its arguments; theorems quantify over an
arbitrary such function. -/
def SimGen : Type := SimArgs → PyDict → SimRaw

/-- `load_simulated_data`: read the configuration (the shared default dict
when the argument is omitted), run the external generator, and assemble
the frame with columns `x_0 … x_{k-1}, e, t` (`df = pd.DataFrame(raw['x'],
columns=['x_'+str(i) …]); df['e'] = raw['e']; df['t'] = raw['t']`).
Nothing in the body writes to module state, so the state comes back
unchanged. -/
def load_simulated_data (gen : SimGen) (st : ModuleState) (args : SimArgs)
    (gaussian_config : Option DictRef) : DataFrame × ModuleState :=
  let ref := configRefUsed st gaussian_config
  let cfg := st.dicts.getD ref []
  let raw := gen args cfg
  let df : DataFrame :=
    ⟨(List.range args.num_features).map (fun i => "x_" ++ toString i) ++ ["e", "t"],
     (raw.x.zip (raw.e.zip raw.t)).map (fun p => p.1 ++ [p.2.1, p.2.2])⟩
  (df, st)

/-! ### Concrete tables used by witnesses and counterexamples. -/

/-- The worked example of §8 of the specification. -/
def dfSpec : DataFrame := ⟨["x0", "x1", "t", "e"], [[1, 2, 5, 1], [3, 4, 10, 0]]⟩

/-- A table whose event column is absent. -/
def dfMissingE : DataFrame := ⟨["x0", "t"], [[7, 3]]⟩

/-- A table whose time column is absent (event column present). -/
def dfMissingT : DataFrame := ⟨["x0", "e"], [[7, 1]]⟩

/-- A zero-row table with both named columns present. -/
def dfEmpty : DataFrame := ⟨["t", "e"], []⟩

/-- A table with a covariate named `Y`, colliding with the default label
name. -/
def dfCollide : DataFrame := ⟨["Y", "t", "e"], [[7, 5, 0]]⟩

/-- A table with a non-binary event value. -/
def dfEventTwo : DataFrame := ⟨["x0", "t", "e"], [[9, 4, 2]]⟩

/-- 100 rows, 30 of them events. -/
def dfHundred : DataFrame :=
  ⟨["t", "e"], (List.range 100).map (fun i => [mkRat i 1, if i < 30 then 1 else 0])⟩

/-- A concrete generator instance for closed statements. -/
def genTrivial : SimGen := fun _ _ => ⟨[], [], []⟩

/-- Concrete `load_simulated_data` arguments: the defaults of the source
signature (`N=1000, num_features=10, num_var=2, average_death=5,
end_time=15, method="gaussian", seed=42`) with hazard ratio 2. -/
def argsDefault : SimArgs := ⟨2, 1000, 10, 2, 5, 15, "gaussian", 42⟩

example : survival_df ⟨["x0", "x1", "t", "e"], [[1, 2, 5, 1], [3, 4, 10, 0]]⟩ "t" "e" "Y" [] =
    (⟨["x0", "x1", "t", "e", "Y"], [[1, 2, 5, 1, 5], [3, 4, 10, 0, -10]]⟩,
     .ok ⟨["x0", "x1", "Y"], [[1, 2, 5], [3, 4, -10]]⟩) := by decide

example : survival_stats ⟨["t", "e"], []⟩ "t" "e" =
    ([.header, .rowsOut 0, .colsOut 0 "e" "t", .ratioOut none,
      .minOut none, .maxOut none, .blank], none) := by decide

example : twoDecString (mkRat 3 10) = "0.30" := by decide

example : twoDecString (mkRat 30 1) = "30.00" := by decide

/-! ### Bridge lemmas: the kernel-computable rational operations used in the
translation agree with the standard field operations on `ℚ`. -/

theorem qAdd_eq_add (a b : ℚ) : qAdd a b = a + b := by
  rw [qAdd, Rat.mkRat_eq_divInt, Rat.divInt_eq_div]
  have ha : (a.den : ℚ) ≠ 0 := Nat.cast_ne_zero.mpr a.den_nz
  have hb : (b.den : ℚ) ≠ 0 := Nat.cast_ne_zero.mpr b.den_nz
  conv_rhs => rw [← Rat.num_div_den a, ← Rat.num_div_den b]
  push_cast
  field_simp

theorem qSum_eq_sum (l : List ℚ) : qSum l = l.sum := by
  induction l with
  | nil => rfl
  | cons a as ih => rw [qSum, qAdd_eq_add, ih, List.sum_cons]

theorem qDivNat_eq_div (a : ℚ) (n : ℕ) : qDivNat a n = a / (n : ℚ) := by
  rw [qDivNat, Rat.mkRat_eq_divInt, Rat.divInt_eq_div]
  conv_rhs => rw [← Rat.num_div_den a]
  rw [div_div]
  push_cast
  ring

/-! ### Helper lemmas about `findIdx`, `List.getD` and `List.set`. -/

theorem findIdx_eq_none_iff (c : String) (cs : List String) :
    findIdx c cs = none ↔ c ∉ cs := by
  induction cs with
  | nil => simp [findIdx]
  | cons c1 cs ih =>
    by_cases h : c1 = c
    · simp [findIdx, h]
    · simp [findIdx, h, ih, Ne.symm h]

theorem findIdx_lt_length (c : String) (cs : List String) (j : ℕ)
    (h : findIdx c cs = some j) : j < cs.length := by
  induction cs generalizing j with
  | nil => simp [findIdx] at h
  | cons c1 cs ih =>
    rw [findIdx] at h
    by_cases h1 : c1 = c
    · rw [if_pos h1] at h
      injection h with h
      simp [← h]
    · rw [if_neg h1] at h
      rcases hx : findIdx c cs with _ | j1 <;> rw [hx] at h
      · simp at h
      · simp only [Option.map_some'] at h
        injection h with h
        have hlt := ih j1 hx
        simp only [List.length_cons, ← h]
        omega

theorem findIdx_append_left (c : String) (cs ds : List String) (j : ℕ)
    (h : findIdx c cs = some j) : findIdx c (cs ++ ds) = some j := by
  induction cs generalizing j with
  | nil => simp [findIdx] at h
  | cons c1 cs ih =>
    rw [findIdx] at h
    rw [List.cons_append, findIdx]
    by_cases h1 : c1 = c
    · rwa [if_pos h1] at h ⊢
    · rw [if_neg h1] at h ⊢
      rcases hx : findIdx c cs with _ | j1 <;> rw [hx] at h
      · simp at h
      · rw [ih j1 hx]
        exact h

theorem findIdx_append_right (c : String) (cs ds : List String)
    (h : c ∉ cs) :
    findIdx c (cs ++ ds) = (findIdx c ds).map (· + cs.length) := by
  induction cs with
  | nil => rcases hx : findIdx c ds with _ | j <;> simp [hx]
  | cons c1 cs ih =>
    have h1 : c1 ≠ c := fun hh => h (by simp [hh])
    have h2 : c ∉ cs := fun hh => h (by simp [hh])
    rw [List.cons_append, findIdx, if_neg h1, ih h2]
    rcases hx : findIdx c ds with _ | j <;> rfl

theorem findIdx_append_self (c : String) (cs : List String) (h : c ∉ cs) :
    findIdx c (cs ++ [c]) = some cs.length := by
  rw [findIdx_append_right c cs [c] h]
  simp [findIdx]

theorem findIdx_mem_some (c : String) (cs : List String) (h : c ∈ cs) :
    ∃ j, findIdx c cs = some j ∧ j < cs.length := by
  rcases hj : findIdx c cs with _ | j
  · exact absurd ((findIdx_eq_none_iff c cs).mp hj) (by simpa using h)
  · exact ⟨j, rfl, findIdx_lt_length c cs j hj⟩

theorem getD_append_lt (l l2 : List ℚ) (j : ℕ) (d : ℚ) (h : j < l.length) :
    (l ++ l2).getD j d = l.getD j d := by
  induction l generalizing j with
  | nil => simp at h
  | cons a l ih =>
    cases j with
    | zero => rfl
    | succ j => simpa using ih j (by simpa using h)

theorem getD_append_len (l : List ℚ) (v : ℚ) (l2 : List ℚ) (d : ℚ) :
    (l ++ v :: l2).getD l.length d = v := by
  induction l with
  | nil => rfl
  | cons a l ih => simpa using ih

theorem set_append_len (l : List ℚ) (v x : ℚ) :
    (l ++ [v]).set l.length x = l ++ [x] := by
  induction l with
  | nil => rfl
  | cons a l ih => simp [ih]

theorem getD_map_lt (l : List (List ℚ)) (f : List ℚ → List ℚ) (i : ℕ)
    (d1 d2 : List ℚ) (h : i < l.length) :
    (l.map f).getD i d2 = f (l.getD i d1) := by
  induction l generalizing i with
  | nil => simp at h
  | cons a l ih =>
    cases i with
    | zero => rfl
    | succ i => simpa using ih i (by simpa using h)

theorem getD_of_le_length (l : List (List ℚ)) (i : ℕ) (d : List ℚ)
    (h : l.length ≤ i) : l.getD i d = d := by
  induction l generalizing i with
  | nil => simp
  | cons a l ih =>
    cases i with
    | zero => simp at h
    | succ i => simpa using ih i (by simpa using h)

theorem getD_mem_of_lt (l : List (List ℚ)) (i : ℕ) (d : List ℚ)
    (h : i < l.length) : l.getD i d ∈ l := by
  induction l generalizing i with
  | nil => simp at h
  | cons a l ih =>
    cases i with
    | zero => exact List.mem_cons_self a l
    | succ i => exact List.mem_cons_of_mem a (ih i (by simpa using h))

theorem zipWith_map_self (g : List ℚ → ℚ → List ℚ) (f : List ℚ → ℚ)
    (l : List (List ℚ)) :
    List.zipWith g l (l.map f) = l.map (fun a => g a (f a)) := by
  induction l with
  | nil => rfl
  | cons a l ih => simp [ih]

theorem setCol_not_mem (df : DataFrame) (c : String) (h : c ∉ df.cols)
    (vals : List ℚ) :
    setCol df c vals = ⟨df.cols ++ [c], df.rows.zipWith (fun rr v => rr ++ [v]) vals⟩ := by
  rw [setCol, (findIdx_eq_none_iff c df.cols).mpr h]

/-- Full characterization of `survival_df` when the time and event columns
exist and the label name is fresh (the intended-use case): the caller's
frame comes back with the signed-label column appended in place, and the
returned frame is the covariate projection plus that label column. -/
theorem survival_df_spec (df : DataFrame) (t e lab : String) (excl : List String)
    (ti ei : ℕ)
    (hwf : wellFormed df)
    (hti : findIdx t df.cols = some ti)
    (hei : findIdx e df.cols = some ei)
    (hlab : lab ∉ df.cols) :
    survival_df df t e lab excl =
      (⟨df.cols ++ [lab],
        df.rows.map (fun rr => rr ++ [signedLabel (rr.getD ti 0) (rr.getD ei 0)])⟩,
       .ok ⟨xCols df.cols t e excl ++ [lab],
            df.rows.map (fun rr =>
              (xCols df.cols t e excl).map
                (fun c => rr.getD ((findIdx c df.cols).getD 0) 0) ++
              [signedLabel (rr.getD ti 0) (rr.getD ei 0)])⟩) := by
  have hei_lt := findIdx_lt_length e df.cols ei hei
  have he2 : findIdx e (df.cols ++ [lab]) = some ei :=
    findIdx_append_left e df.cols [lab] ei hei
  have hlab2 : findIdx lab (df.cols ++ [lab]) = some df.cols.length :=
    findIdx_append_self lab df.cols hlab
  have hrows2 :
      (df.rows.map (fun rr => rr ++ [rr.getD ti 0])).map
          (fun rr => if rr.getD ei 0 = 0
            then rr.set df.cols.length (-(rr.getD df.cols.length 0)) else rr) =
        df.rows.map (fun rr => rr ++ [signedLabel (rr.getD ti 0) (rr.getD ei 0)]) := by
    rw [List.map_map]
    apply List.map_congr_left
    intro rr hrr
    have hlen := hwf rr hrr
    simp only [Function.comp_apply]
    rw [getD_append_lt rr _ ei 0 (by rw [hlen]; exact hei_lt)]
    rw [show df.cols.length = rr.length from hlen.symm]
    rw [getD_append_len rr (rr.getD ti 0) [] 0, set_append_len]
    rw [signedLabel]
    split_ifs <;> rfl
  have hproj : ∀ rr ∈ df.rows,
      (xCols df.cols t e excl ++ [lab]).map
          (fun c => (rr ++ [signedLabel (rr.getD ti 0) (rr.getD ei 0)]).getD
            ((findIdx c (df.cols ++ [lab])).getD 0) 0) =
        (xCols df.cols t e excl).map
            (fun c => rr.getD ((findIdx c df.cols).getD 0) 0) ++
          [signedLabel (rr.getD ti 0) (rr.getD ei 0)] := by
    intro rr hrr
    have hlen := hwf rr hrr
    rw [List.map_append]
    congr 1
    · apply List.map_congr_left
      intro c hc
      have hcmem : c ∈ df.cols := (List.mem_filter.mp hc).1
      obtain ⟨jc, hjc, hjc_lt⟩ := findIdx_mem_some c df.cols hcmem
      rw [findIdx_append_left c df.cols [lab] jc hjc, hjc]
      simp only [Option.getD_some]
      exact getD_append_lt rr _ jc 0 (by rw [hlen]; exact hjc_lt)
    · simp only [List.map_cons, List.map_nil, hlab2, Option.getD_some]
      rw [show df.cols.length = rr.length from hlen.symm]
      rw [getD_append_len rr _ [] 0]
  have hfind :
      (xCols df.cols t e excl ++ [lab]).find?
          (fun c => (findIdx c (df.cols ++ [lab])).isNone) = none := by
    rw [List.find?_eq_none]
    intro c hc
    rcases List.mem_append.mp hc with hc1 | hc1
    · have hcmem : c ∈ df.cols := (List.mem_filter.mp hc1).1
      obtain ⟨jc, hjc, _⟩ := findIdx_mem_some c df.cols hcmem
      rw [findIdx_append_left c df.cols [lab] jc hjc]
      simp
    · rw [List.mem_singleton.mp hc1, hlab2]
      simp
  simp only [survival_df, hti, setCol_not_mem df lab hlab,
    zipWith_map_self (fun rr v => rr ++ [v]) (fun rr => rr.getD ti 0), he2, hlab2,
    negateWhereZero, hrows2, selectCols, hfind, List.map_map]
  have hrows3 :
      df.rows.map ((fun rr =>
          (xCols df.cols t e excl ++ [lab]).map
            (fun c => rr.getD ((findIdx c (df.cols ++ [lab])).getD 0) 0)) ∘
        (fun rr => rr ++ [signedLabel (rr.getD ti 0) (rr.getD ei 0)])) =
      df.rows.map (fun rr =>
        (xCols df.cols t e excl).map
            (fun c => rr.getD ((findIdx c df.cols).getD 0) 0) ++
          [signedLabel (rr.getD ti 0) (rr.getD ei 0)]) := by
    apply List.map_congr_left
    intro rr hrr
    simp only [Function.comp_apply]
    exact hproj rr hrr
  rw [hrows3]

/-- The label cell of the returned frame is the signed label of the row. -/
theorem sdf_result_cell_label (df : DataFrame) (t e lab : String)
    (excl : List String) (ti ei i : ℕ)
    (hwf : wellFormed df)
    (hti : findIdx t df.cols = some ti)
    (hei : findIdx e df.cols = some ei)
    (hlab : lab ∉ df.cols)
    (hi : i < df.rows.length) :
    (resDf ((survival_df df t e lab excl).2)).cell i lab =
      signedLabel ((df.rows.getD i []).getD ti 0) ((df.rows.getD i []).getD ei 0) := by
  rw [survival_df_spec df t e lab excl ti ei hwf hti hei hlab]
  have hlabx : lab ∉ xCols df.cols t e excl :=
    fun hm => hlab (List.mem_filter.mp hm).1
  simp only [resDf, DataFrame.cell, findIdx_append_self lab _ hlabx]
  rw [getD_map_lt df.rows _ i [] [] hi]
  rw [show (xCols df.cols t e excl).length =
      ((xCols df.cols t e excl).map
        (fun c => (df.rows.getD i []).getD ((findIdx c df.cols).getD 0) 0)).length
    from (List.length_map _ _).symm]
  rw [getD_append_len]

/-- C1: for every valid SurvivalTable (well-formed; time and event columns
present; fresh label name; nonnegative time; event in {0, 1}) and every
row of the table returned by `survival_df`, the label equals the time
value when the event is 1 and the negated time value when the event is 0;
in both cases the absolute value of the label is the time value (with
time 0 and event 0 the label is -0 = 0, the documented ambiguity). -/
theorem C1_signed_label (df : DataFrame) (t e lab : String)
    (excl : List String) (i : ℕ)
    (hwf : wellFormed df) (ht : t ∈ df.cols) (he : e ∈ df.cols)
    (hlab : ¬ lab ∈ df.cols) (hi : i < df.rows.length)
    (htime : 0 ≤ df.cell i t)
    (hev : df.cell i e = 0 ∨ df.cell i e = 1) :
    resOk ((survival_df df t e lab excl).2) = true ∧
    (df.cell i e = 1 →
      (resDf ((survival_df df t e lab excl).2)).cell i lab = df.cell i t) ∧
    (df.cell i e = 0 →
      (resDf ((survival_df df t e lab excl).2)).cell i lab = -(df.cell i t)) ∧
    |(resDf ((survival_df df t e lab excl).2)).cell i lab| = df.cell i t := by
  obtain ⟨ti, hti, _⟩ := findIdx_mem_some t df.cols ht
  obtain ⟨ei, hei, _⟩ := findIdx_mem_some e df.cols he
  have hcell := sdf_result_cell_label df t e lab excl ti ei i hwf hti hei hlab hi
  have hct : df.cell i t = (df.rows.getD i []).getD ti 0 := by
    simp only [DataFrame.cell, hti]
  have hce : df.cell i e = (df.rows.getD i []).getD ei 0 := by
    simp only [DataFrame.cell, hei]
  have hok : resOk ((survival_df df t e lab excl).2) = true := by
    rw [survival_df_spec df t e lab excl ti ei hwf hti hei hlab]
    rfl
  refine ⟨hok, ?_, ?_, ?_⟩
  · intro h1
    rw [hcell, ← hct, ← hce, h1, signedLabel, if_neg one_ne_zero]
  · intro h0
    rw [hcell, ← hct, ← hce, h0, signedLabel, if_pos rfl]
  · rw [hcell, ← hct, ← hce, signedLabel]
    rcases hev with h0 | h1
    · rw [h0, if_pos rfl, abs_neg, abs_of_nonneg htime]
    · rw [h1, if_neg one_ne_zero, abs_of_nonneg htime]

/-- C1 witness: the censored row of the worked example of §8 (time 10,
event 0) gets label -10, and the absolute value of the label is the time. -/
theorem C1_signed_label_witness :
    (wellFormed dfSpec ∧ "t" ∈ dfSpec.cols ∧ "e" ∈ dfSpec.cols ∧
      ¬ "Y" ∈ dfSpec.cols ∧ 1 < dfSpec.rows.length ∧
      0 ≤ dfSpec.cell 1 "t" ∧ (dfSpec.cell 1 "e" = 0 ∨ dfSpec.cell 1 "e" = 1)) ∧
    (resOk ((survival_df dfSpec "t" "e" "Y" []).2) = true ∧
     (dfSpec.cell 1 "e" = 1 →
       (resDf ((survival_df dfSpec "t" "e" "Y" []).2)).cell 1 "Y" = dfSpec.cell 1 "t") ∧
     (dfSpec.cell 1 "e" = 0 →
       (resDf ((survival_df dfSpec "t" "e" "Y" []).2)).cell 1 "Y" = -(dfSpec.cell 1 "t")) ∧
     |(resDf ((survival_df dfSpec "t" "e" "Y" []).2)).cell 1 "Y"| = dfSpec.cell 1 "t") :=
  ⟨⟨by decide, by decide, by decide, by decide, by decide, by decide, by decide⟩,
   C1_signed_label dfSpec "t" "e" "Y" [] 1 (by decide) (by decide) (by decide)
     (by decide) (by decide) (by decide) (by decide)⟩

/-- C10: `survival_df` negates the label exactly on the rows whose event
value compares equal to 0: a row with any non-zero event value — not only
1 — keeps the positive time value (every non-zero event value is treated
as an observed event). -/
theorem C10_nonzero_event_kept (df : DataFrame) (t e lab : String)
    (excl : List String) (i : ℕ)
    (hwf : wellFormed df) (ht : t ∈ df.cols) (he : e ∈ df.cols)
    (hlab : ¬ lab ∈ df.cols) (hi : i < df.rows.length)
    (hne : df.cell i e ≠ 0) :
    resOk ((survival_df df t e lab excl).2) = true ∧
    (resDf ((survival_df df t e lab excl).2)).cell i lab = df.cell i t := by
  obtain ⟨ti, hti, _⟩ := findIdx_mem_some t df.cols ht
  obtain ⟨ei, hei, _⟩ := findIdx_mem_some e df.cols he
  have hcell := sdf_result_cell_label df t e lab excl ti ei i hwf hti hei hlab hi
  have hct : df.cell i t = (df.rows.getD i []).getD ti 0 := by
    simp only [DataFrame.cell, hti]
  have hce : df.cell i e = (df.rows.getD i []).getD ei 0 := by
    simp only [DataFrame.cell, hei]
  refine ⟨?_, ?_⟩
  · rw [survival_df_spec df t e lab excl ti ei hwf hti hei hlab]
    rfl
  · rw [hcell, ← hct, ← hce, signedLabel, if_neg hne]

/-- C10 witness: a row with event value 2 (neither 0 nor 1) keeps the
positive time 4 as its label. -/
theorem C10_nonzero_event_kept_witness :
    (wellFormed dfEventTwo ∧ "t" ∈ dfEventTwo.cols ∧ "e" ∈ dfEventTwo.cols ∧
      ¬ "Y" ∈ dfEventTwo.cols ∧ 0 < dfEventTwo.rows.length ∧
      dfEventTwo.cell 0 "e" = 2 ∧ dfEventTwo.cell 0 "e" ≠ 0) ∧
    (resOk ((survival_df dfEventTwo "t" "e" "Y" []).2) = true ∧
     (resDf ((survival_df dfEventTwo "t" "e" "Y" []).2)).cell 0 "Y" =
       dfEventTwo.cell 0 "t") :=
  ⟨⟨by decide, by decide, by decide, by decide, by decide, by decide, by decide⟩,
   C10_nonzero_event_kept dfEventTwo "t" "e" "Y" [] 0 (by decide) (by decide)
     (by decide) (by decide) (by decide) (by decide)⟩

/-- C3: for every valid input (well-formed; time and event columns present;
fresh label name), the returned table's columns are exactly the input's
covariate columns — all columns except `t_col`, `e_col` and the names in
`exclude_col`, in their original relative order — followed by the label
column, which occurs exactly once, as the last column. -/
theorem C3_output_columns (df : DataFrame) (t e lab : String)
    (excl : List String)
    (hwf : wellFormed df) (ht : t ∈ df.cols) (he : e ∈ df.cols)
    (hlab : ¬ lab ∈ df.cols) :
    resOk ((survival_df df t e lab excl).2) = true ∧
    (resDf ((survival_df df t e lab excl).2)).cols =
      df.cols.filter (fun c => ¬ c ∈ ([t, e] ++ excl)) ++ [lab] ∧
    (resDf ((survival_df df t e lab excl).2)).cols.count lab = 1 := by
  obtain ⟨ti, hti, _⟩ := findIdx_mem_some t df.cols ht
  obtain ⟨ei, hei, _⟩ := findIdx_mem_some e df.cols he
  rw [survival_df_spec df t e lab excl ti ei hwf hti hei hlab]
  have hlabx : lab ∉ xCols df.cols t e excl :=
    fun hm => hlab (List.mem_filter.mp hm).1
  refine ⟨rfl, rfl, ?_⟩
  simp [resDf, List.count_append, List.count_eq_zero_of_not_mem hlabx,
    List.count_singleton]

/-- C3 witness: the worked example with `x1` additionally excluded returns
the columns `[x0, Y]`. -/
theorem C3_output_columns_witness :
    (wellFormed dfSpec ∧ "t" ∈ dfSpec.cols ∧ "e" ∈ dfSpec.cols ∧
      ¬ "Y" ∈ dfSpec.cols) ∧
    (resOk ((survival_df dfSpec "t" "e" "Y" ["x1"]).2) = true ∧
     (resDf ((survival_df dfSpec "t" "e" "Y" ["x1"]).2)).cols =
       dfSpec.cols.filter (fun c => ¬ c ∈ (["t", "e"] ++ ["x1"])) ++ ["Y"] ∧
     (resDf ((survival_df dfSpec "t" "e" "Y" ["x1"]).2)).cols.count "Y" = 1) :=
  ⟨⟨by decide, by decide, by decide, by decide⟩,
   C3_output_columns dfSpec "t" "e" "Y" ["x1"] (by decide) (by decide)
     (by decide) (by decide)⟩

/-- C2 counterexample: `survival_df` succeeds on the worked example of §8
yet the caller's table does not equal its pre-call snapshot afterwards —
the label column `Y` has been assigned into it (lines 60–61 of the source
write into `data` itself). -/
theorem C2_purity_counterexample :
    resOk ((survival_df dfSpec "t" "e" "Y" []).2) = true ∧
    (survival_df dfSpec "t" "e" "Y" []).1 ≠ dfSpec := by decide

/-- C2 amended: `survival_df` mutates the caller's table: after a
successful call on a valid input (well-formed; time and event columns
present; fresh label name) the input object has gained the label column,
appended last and holding the signed labels; every pre-existing column
keeps its values, and the table no longer equals its pre-call snapshot. -/
theorem C2_mutates_input (df : DataFrame) (t e lab : String)
    (excl : List String) (i : ℕ) (c : String)
    (hwf : wellFormed df) (ht : t ∈ df.cols) (he : e ∈ df.cols)
    (hlab : ¬ lab ∈ df.cols) (hc : c ∈ df.cols) :
    (survival_df df t e lab excl).1.cols = df.cols ++ [lab] ∧
    (survival_df df t e lab excl).1.cell i c = df.cell i c ∧
    (survival_df df t e lab excl).1 ≠ df := by
  obtain ⟨ti, hti, _⟩ := findIdx_mem_some t df.cols ht
  obtain ⟨ei, hei, _⟩ := findIdx_mem_some e df.cols he
  rw [survival_df_spec df t e lab excl ti ei hwf hti hei hlab]
  obtain ⟨jc, hjc, hjc_lt⟩ := findIdx_mem_some c df.cols hc
  refine ⟨rfl, ?_, ?_⟩
  · simp only [DataFrame.cell, findIdx_append_left c df.cols [lab] jc hjc, hjc]
    by_cases hiN : i < df.rows.length
    · rw [getD_map_lt df.rows _ i [] [] hiN]
      exact getD_append_lt _ _ jc 0 (by
        rw [hwf (df.rows.getD i []) (getD_mem_of_lt df.rows i [] hiN)]
        exact hjc_lt)
    · rw [getD_of_le_length _ i [] (by simpa using Nat.le_of_not_lt hiN),
        getD_of_le_length df.rows i [] (Nat.le_of_not_lt hiN)]
  · intro hEq
    have hcols := congrArg DataFrame.cols hEq
    have := congrArg List.length hcols
    simp at this

/-- C2 amended witness: on the worked example the post-call table has
columns `[x0, x1, t, e, Y]`, keeps the pre-existing cell values
(row 0 of column `t` is still 5), and differs from the snapshot. -/
theorem C2_mutates_input_witness :
    (wellFormed dfSpec ∧ "t" ∈ dfSpec.cols ∧ "e" ∈ dfSpec.cols ∧
      ¬ "Y" ∈ dfSpec.cols ∧ "t" ∈ dfSpec.cols) ∧
    ((survival_df dfSpec "t" "e" "Y" []).1.cols = dfSpec.cols ++ ["Y"] ∧
     (survival_df dfSpec "t" "e" "Y" []).1.cell 0 "t" = dfSpec.cell 0 "t" ∧
     (survival_df dfSpec "t" "e" "Y" []).1 ≠ dfSpec) :=
  ⟨⟨by decide, by decide, by decide, by decide, by decide⟩,
   C2_mutates_input dfSpec "t" "e" "Y" [] 0 "t" (by decide) (by decide)
     (by decide) (by decide) (by decide)⟩

/-- C4: for every non-empty table with the event column present, the
events-ratio line emitted by `survival_stats` carries the value
`sum(event column) / N` — the literal formula, with no multiplication by
100 — and its text is that value rendered with two-decimal precision
followed by a percent sign. -/
theorem C4_event_ratio_literal (df : DataFrame) (t e : String)
    (he : e ∈ df.cols) (hN : df.rows ≠ []) :
    (survival_stats df t e).1.getD 3 .blank =
      .ratioOut (some (qDivNat (qSum (colVals df e)) df.rows.length)) ∧
    qDivNat (qSum (colVals df e)) df.rows.length =
      (colVals df e).sum / (df.rows.length : ℚ) ∧
    ratioText (some (qDivNat (qSum (colVals df e)) df.rows.length)) =
      "# Events Ratio: " ++
        twoDecString (qDivNat (qSum (colVals df e)) df.rows.length) ++ "%" := by
  obtain ⟨ji, hji, _⟩ := findIdx_mem_some e df.cols he
  have hg : getCol df e = some (colVals df e) := by
    simp [getCol, colVals, hji]
  have hlen : df.rows.length ≠ 0 := by
    simpa using fun hz => hN (List.length_eq_zero.mp hz)
  refine ⟨?_, ?_, rfl⟩
  · simp only [survival_stats, hg, if_neg hlen]
    rcases hgt : getCol df t with _ | tv <;> simp
  · rw [qDivNat_eq_div, qSum_eq_sum]

set_option maxRecDepth 40000 in
/-- C4 witness: on a 100-row table with 30 events the emitted ratio value
is 3/10 and its rendered line reads `0.30%`, not `30.00%`. -/
theorem C4_event_ratio_literal_witness :
    ("e" ∈ dfHundred.cols ∧ dfHundred.rows ≠ []) ∧
    ((survival_stats dfHundred "t" "e").1.getD 3 .blank =
       .ratioOut (some (qDivNat (qSum (colVals dfHundred "e")) dfHundred.rows.length)) ∧
     qDivNat (qSum (colVals dfHundred "e")) dfHundred.rows.length =
       (colVals dfHundred "e").sum / (dfHundred.rows.length : ℚ) ∧
     ratioText (some (qDivNat (qSum (colVals dfHundred "e")) dfHundred.rows.length)) =
       "# Events Ratio: " ++
         twoDecString (qDivNat (qSum (colVals dfHundred "e")) dfHundred.rows.length) ++ "%") ∧
    (qDivNat (qSum (colVals dfHundred "e")) dfHundred.rows.length = mkRat 3 10 ∧
     ratioText (some (mkRat 3 10)) = "# Events Ratio: 0.30%" ∧
     ratioText (some (mkRat 3 10)) ≠ "# Events Ratio: 30.00%") :=
  ⟨⟨by decide, by decide⟩,
   C4_event_ratio_literal dfHundred "t" "e" (by decide) (by decide),
   by decide, by decide, by decide⟩

/-- When the event column is missing, `survival_stats` has already printed
the header, row-count and column-count lines before the lookup fails. -/
theorem stats_missing_e (df : DataFrame) (t e : String)
    (he : ¬ e ∈ df.cols) :
    survival_stats df t e =
      ([.header, .rowsOut df.rows.length,
        .colsOut ((df.cols.length : ℤ) - 2) e t],
       some (.keyError e)) := by
  have hnone : findIdx e df.cols = none := (findIdx_eq_none_iff e df.cols).mpr he
  simp [survival_stats, getCol, hnone]

/-- When the time column exists, the event column is missing and the label
name is fresh, `survival_df` fails with the event column's `KeyError` —
but only after line 60 has already appended the label column to the
caller's frame. -/
theorem sdf_missing_e (df : DataFrame) (t e lab : String) (excl : List String)
    (ht : t ∈ df.cols) (he : ¬ e ∈ df.cols)
    (hlab : ¬ lab ∈ df.cols) (hlabe : lab ≠ e) :
    (survival_df df t e lab excl).2 = .error (.keyError e) ∧
    (survival_df df t e lab excl).1.cols = df.cols ++ [lab] := by
  obtain ⟨ti, hti, _⟩ := findIdx_mem_some t df.cols ht
  have hnoE : findIdx e (df.cols ++ [lab]) = none := by
    rw [findIdx_append_right e df.cols [lab] he]
    rw [show findIdx e [lab] = none by simp [findIdx, hlabe]]
    rfl
  simp only [survival_df, hti, setCol_not_mem df lab hlab, hnoE]
  constructor <;> trivial

/-- C5 counterexample: on a zero-row table with both columns present,
`survival_stats` raises nothing at all — in particular not
`EmptyDatasetError` — and emits a full report whose ratio slot is the NaN
produced by the float division 0/0 (the code has no row-count check and
defines no `EmptyDatasetError`). -/
theorem C5_empty_no_error_counterexample :
    (survival_stats dfEmpty "t" "e").2 = none ∧
    (survival_stats dfEmpty "t" "e").2 ≠ some .emptyDatasetError ∧
    (survival_stats dfEmpty "t" "e").1.getD 3 .blank = .ratioOut none := by decide

/-- C5 amended: on every zero-row table whose time and event columns
exist, `survival_stats` does not fail: it emits the full seven-line report
with NaN (undefined) event ratio, minimum and maximum. -/
theorem C5_empty_table_nan (df : DataFrame) (t e : String)
    (hrows : df.rows = []) (ht : t ∈ df.cols) (he : e ∈ df.cols) :
    (survival_stats df t e).2 = none ∧
    (survival_stats df t e).1 =
      [.header, .rowsOut 0, .colsOut ((df.cols.length : ℤ) - 2) e t,
       .ratioOut none, .minOut none, .maxOut none, .blank] := by
  obtain ⟨ji, hji, _⟩ := findIdx_mem_some e df.cols he
  obtain ⟨jt, hjt, _⟩ := findIdx_mem_some t df.cols ht
  have hg : getCol df e = some [] := by simp [getCol, hji, hrows]
  have hgt : getCol df t = some [] := by simp [getCol, hjt, hrows]
  simp [survival_stats, hg, hgt, hrows, listMin, listMax]

/-- C5 amended witness: the concrete empty table. -/
theorem C5_empty_table_nan_witness :
    (dfEmpty.rows = [] ∧ "t" ∈ dfEmpty.cols ∧ "e" ∈ dfEmpty.cols) ∧
    ((survival_stats dfEmpty "t" "e").2 = none ∧
     (survival_stats dfEmpty "t" "e").1 =
       [.header, .rowsOut 0, .colsOut ((dfEmpty.cols.length : ℤ) - 2) "e" "t",
        .ratioOut none, .minOut none, .maxOut none, .blank]) :=
  ⟨⟨by decide, by decide, by decide⟩,
   C5_empty_table_nan dfEmpty "t" "e" (by decide) (by decide) (by decide)⟩

/-- C6 counterexample: with the event column absent, both functions fail
with the untyped pandas `KeyError` naming the missing label, not with
`ColumnNotFoundError` (which does not exist in the code). -/
theorem C6_keyerror_counterexample :
    (survival_stats dfMissingE "t" "e").2 = some (.keyError "e") ∧
    (survival_stats dfMissingE "t" "e").2 ≠ some (.columnNotFoundError "e") ∧
    (survival_df dfMissingE "t" "e" "Y" []).2 = .error (.keyError "e") ∧
    (survival_df dfMissingE "t" "e" "Y" []).2 ≠
      .error (.columnNotFoundError "e") := by decide

/-- C6 amended: when the named time column or the named event column is
absent (with a fresh label name), both `survival_stats` and `survival_df`
do fail — but with the untyped `KeyError` of the underlying library
naming the first missing column each consults, not with a typed
`ColumnNotFoundError`: `survival_stats` reads the event column first
(line 27) and the time column after the ratio (line 28), while
`survival_df` reads the time column first (line 60) and the event column
after the assignment (line 61). -/
theorem C6_missing_column_keyerror (df : DataFrame) (t e lab : String)
    (excl : List String)
    (hmiss : ¬ t ∈ df.cols ∨ ¬ e ∈ df.cols)
    (hlab : ¬ lab ∈ df.cols) (hlabe : lab ≠ e) :
    (survival_stats df t e).2 =
      some (.keyError (if e ∈ df.cols then t else e)) ∧
    (survival_df df t e lab excl).2 =
      .error (.keyError (if t ∈ df.cols then e else t)) := by
  constructor
  · by_cases he : e ∈ df.cols
    · have htn : ¬ t ∈ df.cols := by
        rcases hmiss with h | h
        · exact h
        · exact absurd he h
      rw [if_pos he]
      obtain ⟨ji, hji, _⟩ := findIdx_mem_some e df.cols he
      have hg : getCol df e = some (df.rows.map (fun rr => rr.getD ji 0)) := by
        simp [getCol, hji]
      have hgt : getCol df t = none := by
        simp [getCol, (findIdx_eq_none_iff t df.cols).mpr htn]
      simp [survival_stats, hg, hgt]
    · rw [if_neg he, stats_missing_e df t e he]
  · by_cases ht : t ∈ df.cols
    · have hen : ¬ e ∈ df.cols := by
        rcases hmiss with h | h
        · exact absurd ht h
        · exact h
      rw [if_pos ht]
      exact (sdf_missing_e df t e lab excl ht hen hlab hlabe).1
    · rw [if_neg ht]
      have htn : findIdx t df.cols = none := (findIdx_eq_none_iff t df.cols).mpr ht
      simp [survival_df, htn]

/-- C6 amended witness: both halves — a table missing the event column
(`dfMissingE`, both functions raise `KeyError "e"`) and a table missing
the time column (`dfMissingT`, both functions raise `KeyError "t"`). -/
theorem C6_missing_column_keyerror_witness :
    ((¬ "t" ∈ dfMissingE.cols ∨ ¬ "e" ∈ dfMissingE.cols) ∧
      ¬ "Y" ∈ dfMissingE.cols ∧ "Y" ≠ "e" ∧
      (¬ "t" ∈ dfMissingT.cols ∨ ¬ "e" ∈ dfMissingT.cols) ∧
      ¬ "Y" ∈ dfMissingT.cols) ∧
    (((survival_stats dfMissingE "t" "e").2 =
        some (.keyError (if "e" ∈ dfMissingE.cols then "t" else "e")) ∧
      (survival_df dfMissingE "t" "e" "Y" []).2 =
        .error (.keyError (if "t" ∈ dfMissingE.cols then "e" else "t"))) ∧
     ((survival_stats dfMissingT "t" "e").2 =
        some (.keyError (if "e" ∈ dfMissingT.cols then "t" else "e")) ∧
      (survival_df dfMissingT "t" "e" "Y" []).2 =
        .error (.keyError (if "t" ∈ dfMissingT.cols then "e" else "t")))) :=
  ⟨⟨Or.inr (by decide), by decide, by decide, Or.inl (by decide), by decide⟩,
   ⟨C6_missing_column_keyerror dfMissingE "t" "e" "Y" [] (Or.inr (by decide))
      (by decide) (by decide),
    C6_missing_column_keyerror dfMissingT "t" "e" "Y" [] (Or.inl (by decide))
      (by decide) (by decide)⟩⟩

/-- C7 counterexample: on a failing input (event column absent) `report`
has already emitted output lines before the error, and `encode` leaves the
input table changed (the label column was appended by line 60 before the
line-61 lookup failed) — so failure is not atomic. -/
theorem C7_atomicity_counterexample :
    ((survival_stats dfMissingE "t" "e").2 = some (.keyError "e") ∧
     (survival_stats dfMissingE "t" "e").1 ≠ []) ∧
    ((survival_df dfMissingE "t" "e" "Y" []).2 = .error (.keyError "e") ∧
     (survival_df dfMissingE "t" "e" "Y" []).1 ≠ dfMissingE) := by decide

/-- C7 amended: when the event column is missing (time column present,
fresh label name), `survival_stats` fails only after emitting the header,
row-count and column-count lines, and `survival_df` fails only after
appending the label column to the caller's table; only the return value
is withheld. -/
theorem C7_effects_before_error (df : DataFrame) (t e lab : String)
    (excl : List String)
    (ht : t ∈ df.cols) (he : ¬ e ∈ df.cols)
    (hlab : ¬ lab ∈ df.cols) (hlabe : lab ≠ e) :
    ((survival_stats df t e).2 = some (.keyError e) ∧
     (survival_stats df t e).1 =
       [.header, .rowsOut df.rows.length,
        .colsOut ((df.cols.length : ℤ) - 2) e t]) ∧
    ((survival_df df t e lab excl).2 = .error (.keyError e) ∧
     (survival_df df t e lab excl).1.cols = df.cols ++ [lab]) := by
  have hs := stats_missing_e df t e he
  have hd := sdf_missing_e df t e lab excl ht he hlab hlabe
  exact ⟨⟨by rw [hs], by rw [hs]⟩, hd⟩

/-- C7 amended witness. -/
theorem C7_effects_before_error_witness :
    ("t" ∈ dfMissingE.cols ∧ ¬ "e" ∈ dfMissingE.cols ∧
      ¬ "Y" ∈ dfMissingE.cols ∧ "Y" ≠ "e") ∧
    (((survival_stats dfMissingE "t" "e").2 = some (.keyError "e") ∧
      (survival_stats dfMissingE "t" "e").1 =
        [.header, .rowsOut dfMissingE.rows.length,
         .colsOut ((dfMissingE.cols.length : ℤ) - 2) "e" "t"]) ∧
     ((survival_df dfMissingE "t" "e" "Y" []).2 = .error (.keyError "e") ∧
      (survival_df dfMissingE "t" "e" "Y" []).1.cols = dfMissingE.cols ++ ["Y"])) :=
  ⟨⟨by decide, by decide, by decide, by decide⟩,
   C7_effects_before_error dfMissingE "t" "e" "Y" [] (by decide) (by decide)
     (by decide) (by decide)⟩

/-- C8 counterexample: with a covariate named `Y` and `label_col="Y"`,
`survival_df` raises nothing — `DuplicateColumnError` does not exist in
the code — and returns a corrupted table: the covariate's original values
(7) are overwritten by the signed labels and the column `Y` appears twice,
both copies holding the label value -5. -/
theorem C8_collision_counterexample :
    survival_df dfCollide "t" "e" "Y" [] =
      (⟨["Y", "t", "e"], [[-5, 5, 0]]⟩, .ok ⟨["Y", "Y"], [[-5, -5]]⟩) ∧
    (survival_df dfCollide "t" "e" "Y" []).2 ≠
      .error (.duplicateColumnError "Y") := by decide

/-- C8 amended: when `label_col` collides with a retained covariate name,
`survival_df` does not fail: it overwrites the covariate column in place
with the signed labels and returns a table whose column list is still
`x_cols + [label_col]`, in which the label name now occurs twice. -/
theorem C8_collision_no_error (df : DataFrame) (t e lab : String)
    (excl : List String)
    (hnodup : df.cols.Nodup) (ht : t ∈ df.cols) (he : e ∈ df.cols)
    (hlab : lab ∈ df.cols) (hlt : lab ≠ t) (hle : lab ≠ e)
    (hlx : ¬ lab ∈ excl) :
    resOk ((survival_df df t e lab excl).2) = true ∧
    (resDf ((survival_df df t e lab excl).2)).cols =
      xCols df.cols t e excl ++ [lab] ∧
    ((resDf ((survival_df df t e lab excl).2)).cols.count lab = 2) := by
  obtain ⟨ti, hti, _⟩ := findIdx_mem_some t df.cols ht
  obtain ⟨ei, hei, _⟩ := findIdx_mem_some e df.cols he
  obtain ⟨li, hli, _⟩ := findIdx_mem_some lab df.cols hlab
  have hfind : (xCols df.cols t e excl ++ [lab]).find?
      (fun c => (findIdx c df.cols).isNone) = none := by
    rw [List.find?_eq_none]
    intro c hc
    rcases List.mem_append.mp hc with hc1 | hc1
    · obtain ⟨jc, hjc, _⟩ := findIdx_mem_some c df.cols (List.mem_filter.mp hc1).1
      simp [hjc]
    · rw [List.mem_singleton.mp hc1]
      simp [hli]
  simp only [survival_df, hti, setCol, hli, hei, negateWhereZero, selectCols, hfind]
  refine ⟨rfl, rfl, ?_⟩
  simp only [resDf]
  have hnd2 : (df.cols.filter (fun c => decide (¬ c ∈ ([t, e] ++ excl)))).Nodup :=
    hnodup.filter _
  have hmem2 : lab ∈ df.cols.filter (fun c => decide (¬ c ∈ ([t, e] ++ excl))) :=
    List.mem_filter.mpr ⟨hlab, by simp [hlt, hle, hlx]⟩
  rw [List.count_append, xCols, List.count_eq_one_of_mem hnd2 hmem2]
  simp [List.count_singleton']

/-- C8 amended witness: the collision table `[Y, t, e]` with label `Y`. -/
theorem C8_collision_no_error_witness :
    (dfCollide.cols.Nodup ∧ "t" ∈ dfCollide.cols ∧ "e" ∈ dfCollide.cols ∧
      "Y" ∈ dfCollide.cols ∧ "Y" ≠ "t" ∧ "Y" ≠ "e" ∧ ¬ "Y" ∈ ([] : List String)) ∧
    (resOk ((survival_df dfCollide "t" "e" "Y" []).2) = true ∧
     (resDf ((survival_df dfCollide "t" "e" "Y" []).2)).cols =
       xCols dfCollide.cols "t" "e" [] ++ ["Y"] ∧
     ((resDf ((survival_df dfCollide "t" "e" "Y" []).2)).cols.count "Y" = 2)) :=
  ⟨⟨by decide, by decide, by decide, by decide, by decide, by decide, by decide⟩,
   C8_collision_no_error dfCollide "t" "e" "Y" [] (by decide) (by decide)
     (by decide) (by decide) (by decide) (by decide) (by decide)⟩

/-- C9 counterexample: the default `gaussian_config` observed by a
defaulted call is not a fresh configuration — it is the one dict allocated
when the `def` statement ran, and a second defaulted call (the module
state is returned unchanged by the first) observes the very same object:
the default is shared across calls, refuting "fresh … never shared". -/
theorem C9_shared_default_counterexample :
    configRefUsed initState none = initState.defaultGaussianConfig ∧
    (load_simulated_data genTrivial initState argsDefault none).2 = initState ∧
    configRefUsed (load_simulated_data genTrivial initState argsDefault none).2 none =
      configRefUsed initState none := by decide

/-- C9 amended: the default configuration is the single dict allocated at
function-definition time, shared by reference by every defaulted call —
not fresh per call; but because neither the loader nor the (spec-modelled,
pure) external generator writes module state, a call leaves the state
unchanged, and two calls with identical arguments return identical frames
regardless of any earlier call. -/
theorem C9_default_shared_stateless (gen : SimGen) (st : ModuleState)
    (args args2 : SimArgs) (cfg cfg2 : Option DictRef) :
    configRefUsed st none = st.defaultGaussianConfig ∧
    (load_simulated_data gen st args cfg).2 = st ∧
    (load_simulated_data gen
        ((load_simulated_data gen st args2 cfg2).2) args cfg).1 =
      (load_simulated_data gen st args cfg).1 :=
  ⟨rfl, rfl, rfl⟩
